import Mathlib

/-!
Verification of the air-quality dashboard core (repository
`proj_dataviz-streamlit2`): the composite pollution index calculator
(`src/config/pollutants.py`) and the data-cleaning pipeline
(`src/app.py`).  Python floats are modelled as rationals (`ℚ`), Python
dicts as association lists in iteration order, pandas missing values
(`NaN` in an object column) as `Option`, and exception-catching code as
`Option`-valued functions.
-/

namespace AirQuality

/-! ### Configuration constants (src/config/pollutants.py, lines 5-7) -/

/-- Python `MAX_NORMALIZED_SCORE = 150`: cap for the per-pollutant normalized
score. -/
def MAX_NORMALIZED_SCORE : ℚ := 150

/-- Python `INDEX_MODERATE_THRESHOLD = 50`: lower bound of the "Modéré"
category. -/
def INDEX_MODERATE_THRESHOLD : ℚ := 50

/-- Python `INDEX_HIGH_THRESHOLD = 100`: lower bound of the "Élevé" category. -/
def INDEX_HIGH_THRESHOLD : ℚ := 100

/-! ### Pollutant reference table (src/config/pollutants.py, lines 9-17) -/

/-- One entry of `POLLUTANT_THRESHOLDS`: `good` and `moderate`
concentration thresholds and the dimensionless `weight`.  Every entry of
the Python table defines all three keys, so the `thresholds.get("weight",
1.0)` default in `calculate_pollution_index` never fires and the weight is
modelled as a plain field. -/
structure Thresh where
  good : ℚ
  moderate : ℚ
  weight : ℚ
deriving DecidableEq, Repr

/-- Python `POLLUTANT_THRESHOLDS`: the fixed 7-entry reference table, in source
order. -/
def POLLUTANT_THRESHOLDS : List (String × Thresh) :=
  [("PM2.5", ⟨15, 25, 3/2⟩),
   ("PM10", ⟨45, 75, 6/5⟩),
   ("NO2", ⟨25, 50, 13/10⟩),
   ("O3", ⟨100, 180, 1⟩),
   ("SO2", ⟨40, 100, 4/5⟩),
   ("CO", ⟨4000, 10000, 1/2⟩),
   ("NO", ⟨25, 50, 3/5⟩)]

/-- Python `pollutant in POLLUTANT_THRESHOLDS` / `POLLUTANT_THRESHOLDS[pollutant]`:
association-list lookup in the reference table. -/
def thresholdsFor (p : String) : Option Thresh :=
  POLLUTANT_THRESHOLDS.lookup p

/-! ### Rounding

`round(x, 1)` in Python rounds to one decimal digit with ties going to
the nearest even multiple; modelled exactly on `ℚ`. -/

/-- Round a rational to the nearest integer, ties to the even integer
(the semantics of the Python builtin `round`). -/
def roundHalfEven (q : ℚ) : ℤ :=
  if q - ⌊q⌋ < 1/2 then ⌊q⌋
  else if 1/2 < q - ⌊q⌋ then ⌊q⌋ + 1
  else if ⌊q⌋ % 2 = 0 then ⌊q⌋ else ⌊q⌋ + 1

/-- Python `round(x, 1)`: round to one decimal place. -/
def round1 (q : ℚ) : ℚ :=
  (roundHalfEven (10 * q) : ℚ) / 10

/-! ### calculate_pollution_index (src/config/pollutants.py, lines 70-102) -/

/-- Loop body of `calculate_pollution_index`: one iteration over an
`(pollutant, value)` item of the input dict, updating the accumulator
`(total_weighted_score, total_weight)`.  Items whose pollutant is not in
`POLLUTANT_THRESHOLDS` leave the accumulator unchanged. -/
def indexStep (acc : ℚ × ℚ) (item : String × ℚ) : ℚ × ℚ :=
  match thresholdsFor item.1 with
  | none => acc
  | some t =>
      let normalized_score := min ((item.2 / t.moderate) * 100) MAX_NORMALIZED_SCORE
      (acc.1 + normalized_score * t.weight, acc.2 + t.weight)

/-- Python `calculate_pollution_index(values_by_pollutant)`: weighted composite
pollution index.  The dict argument is modelled as an association list in
iteration order. -/
def calculate_pollution_index (values_by_pollutant : List (String × ℚ)) : ℚ :=
  if values_by_pollutant = [] then 0
  else
    let acc := values_by_pollutant.foldl indexStep (0, 0)
    if acc.2 = 0 then 0 else round1 (acc.1 / acc.2)

/-! ### get_index_category (src/config/pollutants.py, lines 105-112) -/

/-- The record returned by `get_index_category` (label, color, emoji). -/
structure Category where
  label : String
  color : String
  emoji : String
deriving DecidableEq, Repr

/-- Python `get_index_category(index_value)`: bucket the index into
Bon / Modéré / Élevé ("Good" / "Moderate" / "High"). -/
def get_index_category (index_value : ℚ) : Category :=
  if index_value < INDEX_MODERATE_THRESHOLD then ⟨"Bon", "#28a745", "🟢"⟩
  else if index_value < INDEX_HIGH_THRESHOLD then ⟨"Modéré", "#ffc107", "🟠"⟩
  else ⟨"Élevé", "#dc3545", "🔴"⟩

/-! ### Specification-side formulation of the index formula

Independent sums, written the way the spec states the algorithm, to be
compared with the accumulator loop of the source. -/

/-- Spec formula: per-pollutant normalized score
`min((value / moderate_threshold) * 100, 150)`. -/
def normalizedScore (v : ℚ) (t : Thresh) : ℚ :=
  min ((v / t.moderate) * 100) MAX_NORMALIZED_SCORE

/-- Spec formula: `weighted_sum = Σ normalized_score × weight` over the
items present in the reference table. -/
def weightedSum (m : List (String × ℚ)) : ℚ :=
  (m.map (fun item =>
    match thresholdsFor item.1 with
    | none => 0
    | some t => normalizedScore item.2 t * t.weight)).sum

/-- Spec formula: `weight_sum = Σ weight` over the items present in the
reference table. -/
def weightSum (m : List (String × ℚ)) : ℚ :=
  (m.map (fun item =>
    match thresholdsFor item.1 with
    | none => 0
    | some t => t.weight)).sum

/-! ### calculate_city_pollution_index (src/app.py, lines 121-128) -/

/-- One row of the cleaned dataframe, restricted to the columns
`calculate_city_pollution_index` reads: `City_Normalized`, `Pollutant`,
`Value`. -/
structure IndexRow where
  cityNorm : String
  pollutant : String
  value : ℚ
deriving DecidableEq, Repr

/-- Python `city_data.groupby("Pollutant")["Value"].mean().to_dict()`: mean value
per pollutant.  Keys are listed in first-appearance order (pandas sorts
them, but `calculate_pollution_index` is order-insensitive in its
result). -/
def meansByPollutant (rows : List IndexRow) : List (String × ℚ) :=
  ((rows.map (fun r => r.pollutant)).dedup).map (fun k =>
    let vs := (rows.filter (fun r => r.pollutant == k)).map (fun r => r.value)
    (k, vs.sum / (vs.length : ℚ)))

/-- Python `calculate_city_pollution_index(df, city)`: filter the dataframe to
the city, return `0` when no rows match, else the composite index of the
per-pollutant means. -/
def calculate_city_pollution_index (df : List IndexRow) (city : String) : ℚ :=
  let city_data := df.filter (fun r => r.cityNorm == city)
  if city_data = [] then 0
  else calculate_pollution_index (meansByPollutant city_data)

/-! ### String primitives

Python string operations used by the Normalizer (`src/app.py`), modelled
over `List Char`: `str.upper()`, `str.startswith(pat)`, `pat in str`,
`str.strip()`, `str.split(",")`. -/

/-- Python `str.upper()`. -/
def upperStr (s : String) : String := ⟨s.data.map Char.toUpper⟩

/-- Python `haystack.startswith(pat)` at the character-list level
(first argument is the pattern). -/
def startsWithL : List Char → List Char → Bool
  | [], _ => true
  | _ :: _, [] => false
  | p :: ps, c :: cs => p == c && startsWithL ps cs

/-- Python `pat in haystack` at the character-list level. -/
def containsL : List Char → List Char → Bool
  | pat, [] => pat.isEmpty
  | pat, c :: cs => startsWithL pat (c :: cs) || containsL pat cs

/-- Python `s.startswith(pat)`. -/
def strStartsWith (s pat : String) : Bool := startsWithL pat.data s.data

/-- Python `pat in s`. -/
def strContains (s pat : String) : Bool := containsL pat.data s.data

/-- Python whitespace stripped by `str.strip()`. -/
def isWS (c : Char) : Bool :=
  c == ' ' || c == '\t' || c == '\n' || c == '\r' || c == '\x0b' || c == '\x0c'

/-- Python `str.strip()` at the character-list level. -/
def stripChars (l : List Char) : List Char :=
  ((l.dropWhile isWS).reverse.dropWhile isWS).reverse

/-- Python `coord_str.split(",")`: split at every comma, no collapsing; the
empty string gives one empty part, like Python. -/
def splitOnComma : List Char → List (List Char)
  | [] => [[]]
  | c :: t =>
      match splitOnComma t with
      | [] => [[]]
      | h :: r => if c == ',' then [] :: h :: r else (c :: h) :: r

/-! ### normalize_city (src/app.py, lines 30-40) -/

/-- Match rule for the PARIS collapse, applied to the uppercased label. -/
def parisMatch (u : String) : Bool :=
  strContains u "PARIS" && (strContains u "ARRONDISSEMENT" || strStartsWith u "PARIS ")

/-- Match rule for the MARSEILLE collapse, applied to the uppercased
label. -/
def marseilleMatch (u : String) : Bool :=
  strContains u "MARSEILLE" && (strContains u "ARRONDISSEMENT" || strStartsWith u "MARSEILLE ")

/-- Match rule for the LYON collapse, applied to the uppercased label. -/
def lyonMatch (u : String) : Bool :=
  strContains u "LYON" && (strContains u "ARRONDISSEMENT" || strStartsWith u "LYON ")

/-- Python `normalize_city(city)` on a string label (the `pd.isna` early return
is handled at the `Option` level by the pipeline).  The source computes
`city_upper = city.upper()` once and tests the three rules on it; on no
match it returns the *original* label, not the uppercased copy. -/
def normalize_city (city : String) : String :=
  if parisMatch (upperStr city) then "PARIS"
  else if marseilleMatch (upperStr city) then "MARSEILLE"
  else if lyonMatch (upperStr city) then "LYON"
  else city

/-- The claim-side canonicalization, following the spec words "uppercases
it and collapses the three multi-district metropolitan names": the
returned label is the *uppercased* input when no collapse rule matches.
To be compared with `normalize_city` from the source. -/
def canonicalize_city_claim (label : String) : String :=
  if parisMatch (upperStr label) then "PARIS"
  else if marseilleMatch (upperStr label) then "MARSEILLE"
  else if lyonMatch (upperStr label) then "LYON"
  else upperStr label

/-! ### is_valid_city (src/app.py, lines 43-52) -/

/-- Python `is_valid_city(city)` on a string label (the `pd.isna` branch is
handled at the `Option` level by the pipeline).  `city[2].isdigit()` is
modelled with `Char.isDigit` under the `len(city) > 2` guard, so the
`getD` default is never read. -/
def is_valid_city (city : String) : Bool :=
  if city == "" then false
  else if decide (2 < city.data.length) && strStartsWith city "FR"
      && (city.data.getD 2 ' ').isDigit then false
  else if strStartsWith city "ATMO" then false
  else if strContains city "NET-" then false
  else true

/-- The claim-side characterization of invalid labels: empty, or the
country-style prefix "FR" followed immediately by a digit, or the
network-operator prefix token "ATMO", or the dash-delimited
network-identifier substring "NET-" (the literal patterns of the source,
which the spec abstracts as configuration data). -/
def is_valid_city_label_claim (city : String) : Bool :=
  !(city == ""
    || (decide (2 < city.data.length) && strStartsWith city "FR"
        && (city.data.getD 2 ' ').isDigit)
    || strStartsWith city "ATMO"
    || strContains city "NET-")

/-! ### Float parsing

Model of the Python builtin `float(s)` for finite decimal literals: optional sign,
digits with an optional decimal point (at least one digit overall),
optional exponent `e`/`E` with optional sign.  The special spellings
`inf`/`nan` and underscore digit separators, which never occur in
coordinate data, are not modelled (they fall on the non-parsing side). -/

/-- Numeric value of a digit string. -/
def digitsVal (l : List Char) : ℕ :=
  l.foldl (fun a c => a * 10 + (c.toNat - 48)) 0

/-- Nonempty and all decimal digits. -/
def isDigits (l : List Char) : Bool :=
  !l.isEmpty && l.all Char.isDigit

/-- Strip one leading sign; `true` means negative. -/
def parseSign : List Char → Bool × List Char
  | '-' :: t => (true, t)
  | '+' :: t => (false, t)
  | l => (false, l)

/-- Split at the first character satisfying `p`; `none` when absent. -/
def splitFirstAt (p : Char → Bool) : List Char → Option (List Char × List Char)
  | [] => none
  | c :: t =>
      if p c then some ([], t)
      else (splitFirstAt p t).map (fun ab => (c :: ab.1, ab.2))

/-- Unsigned mantissa: `digits`, `digits.digits`, `digits.` or
`.digits`. -/
def parseMantissa (l : List Char) : Option ℚ :=
  match splitFirstAt (fun c => c == '.') l with
  | none => if isDigits l then some (digitsVal l : ℚ) else none
  | some (a, b) =>
      if a.all Char.isDigit && b.all Char.isDigit && !(a.isEmpty && b.isEmpty) then
        some ((digitsVal a : ℚ) + (digitsVal b : ℚ) / (10 : ℚ) ^ b.length)
      else none

/-- Exponent part after `e`/`E`: optional sign then digits; `true` means
a negative exponent. -/
def parseExp (l : List Char) : Option (Bool × ℕ) :=
  let sd := parseSign l
  if isDigits sd.2 then some (sd.1, digitsVal sd.2) else none

/-- Python `float(s)` on an already-stripped character list. -/
def parseFloatChars (l : List Char) : Option ℚ :=
  let sm := parseSign l
  match splitFirstAt (fun c => c == 'e' || c == 'E') sm.2 with
  | none =>
      (parseMantissa sm.2).map (fun q => if sm.1 then -q else q)
  | some (m, e) =>
      match parseMantissa m, parseExp e with
      | some qm, some en =>
          let v := if en.1 then qm / (10 : ℚ) ^ en.2 else qm * (10 : ℚ) ^ en.2
          some (if sm.1 then -v else v)
      | _, _ => none

/-! ### parse_coords (src/app.py, lines 62-69) -/

/-- Python `parse_coords(coord_str)`: split on commas, strip and float-parse the
first two parts.  Every exception of the source (`ValueError` from
`float`, `IndexError` from a missing second part, `AttributeError` from a
non-string, handled at the `Option` level by the pipeline) is caught and
becomes the null result `none`, so the function is total and never
raises. -/
def parse_coords (coord_str : String) : Option (ℚ × ℚ) :=
  match splitOnComma coord_str.data with
  | p0 :: p1 :: _ =>
      match parseFloatChars (stripChars p0), parseFloatChars (stripChars p1) with
      | some lat, some lon => some (lat, lon)
      | _, _ => none
  | _ => none

/-! ### The cleaning pipeline of load_data (src/app.py, lines 59-98)

One dataframe row, with the raw columns the pipeline reads and the
derived columns it writes (`Latitude`, `Longitude`, `City_Normalized`),
modelled as `Option`-valued fields (`none` = pandas missing value).  The
timestamp-derived columns (`Date`/`Year`/`Month`) and the recency flags
are additional derived columns not read by any cleaning filter, so they
are not part of this model. -/
structure Row where
  coords : String
  pollutant : String
  value : Option ℚ
  city : Option String
  location : Option String
  lat : Option ℚ
  lon : Option ℚ
  cityNorm : Option String
deriving DecidableEq, Repr

/-- Python `air_pollutants` in `load_data`: the fixed set of 7 known codes. -/
def KNOWN_POLLUTANTS : List String :=
  ["NO2", "O3", "PM10", "PM2.5", "SO2", "NO", "CO"]

/-- Python `df[["Latitude", "Longitude"]] = df["Coordinates"].apply(parse_coords)`:
write the parsed coordinates into the derived columns (both `none` when
parsing fails, matching the `(None, None)` return). -/
def setCoords (r : Row) : Row :=
  match parse_coords r.coords with
  | some ll => { r with lat := some ll.1, lon := some ll.2 }
  | none => { r with lat := none, lon := none }

/-- Python `(df["Value"] >= 0) & (df["Value"] < 1000)`: a missing value compares
false in pandas, so it fails the filter. -/
def valueOk : Option ℚ → Bool
  | none => false
  | some v => decide (0 ≤ v) && decide (v < 1000)

/-- Python `df["City"] = df["City"].fillna(df["Location"])`: substitute the
location label only when the city label is *missing* (`fillna` does not
touch empty strings). -/
def backfill_city (r : Row) : Row :=
  { r with city := match r.city with
    | none => r.location
    | some c => some c }

/-- Python `is_valid_city` lifted to the column value: `pd.isna(city)` gives
false. -/
def cityValid : Option String → Bool
  | none => false
  | some c => is_valid_city c

/-- The per-row cleaning chain of `load_data`, in source order: derive
coordinates, keep known pollutants, keep in-range values, require
latitude/longitude/value, backfill the city from the location, keep valid
city labels, then write the canonical city column.  `none` means the row
is dropped. -/
def rowClean (r : Row) : Option Row :=
  let r1 := setCoords r
  if KNOWN_POLLUTANTS.contains r1.pollutant = false then none
  else if valueOk r1.value = false then none
  else if (r1.lat.isSome && r1.lon.isSome && r1.value.isSome) = false then none
  else
    let r2 := backfill_city r1
    if cityValid r2.city = false then none
    else some { r2 with cityNorm := r2.city.map normalize_city }

/-- The whole Normalizer: clean every row, dropping the filtered ones. -/
def load_clean (rows : List Row) : List Row :=
  rows.filterMap rowClean

/-- The filter predicates of the pipeline, as one cleaned-row invariant:
known pollutant code, value present and in `[0, 1000)`, parsed
coordinates present, valid city label. -/
def rowOk (r : Row) : Bool :=
  KNOWN_POLLUTANTS.contains r.pollutant
  && valueOk r.value
  && (r.lat.isSome && r.lon.isSome && r.value.isSome)
  && cityValid r.city

/-! ## Theorems -/

theorem foldl_indexStep (m : List (String × ℚ)) (a b : ℚ) :
    m.foldl indexStep (a, b) = (a + weightedSum m, b + weightSum m) := by
  induction m generalizing a b with
  | nil => simp [weightedSum, weightSum]
  | cons hd tl ih =>
      simp only [List.foldl_cons, weightedSum, weightSum, List.map_cons, List.sum_cons]
      cases h : thresholdsFor hd.1 with
      | none => simp [indexStep, h, ih, weightedSum, weightSum]
      | some t =>
          simp only [indexStep, h]
          rw [ih]
          refine Prod.ext ?_ ?_ <;> simp [normalizedScore, weightedSum, weightSum] <;> ring

/-! ### Bounds lemmas for rounding -/

theorem le_roundHalfEven (k : ℤ) (q : ℚ) (h : (k : ℚ) ≤ q) :
    k ≤ roundHalfEven q := by
  have hf : k ≤ ⌊q⌋ := Int.le_floor.mpr h
  unfold roundHalfEven
  split
  · exact hf
  · split
    · omega
    · split <;> omega

theorem roundHalfEven_le (k : ℤ) (q : ℚ) (h : q ≤ (k : ℚ)) :
    roundHalfEven q ≤ k := by
  have hn : (⌊q⌋ : ℚ) ≤ q := Int.floor_le q
  have hf : ⌊q⌋ ≤ k := by
    have := Int.floor_le_floor h
    simpa using this
  unfold roundHalfEven
  split
  · exact hf
  · rename_i h1
    split
    · rename_i h2
      -- q > ⌊q⌋ + 1/2 and q ≤ k force ⌊q⌋ + 1 ≤ k
      by_contra hc
      push_neg at hc
      have : k ≤ ⌊q⌋ := by omega
      have : (k : ℚ) ≤ (⌊q⌋ : ℚ) := by exact_mod_cast this
      linarith
    · rename_i h2
      have heq : q - (⌊q⌋ : ℚ) = 1/2 := le_antisymm (not_lt.mp h2) (not_lt.mp h1)
      have : (⌊q⌋ : ℚ) + 1/2 ≤ (k : ℚ) := by linarith
      have hlt : ⌊q⌋ < k := by
        by_contra hc
        push_neg at hc
        have : (k : ℚ) ≤ (⌊q⌋ : ℚ) := by exact_mod_cast hc
        linarith
      split <;> omega

/-! ### Positivity of the reference table -/

theorem thresholdsFor_pos (p : String) (t : Thresh)
    (h : thresholdsFor p = some t) : 0 < t.moderate ∧ 0 < t.weight := by
  simp only [thresholdsFor, POLLUTANT_THRESHOLDS, List.lookup] at h
  repeat' split at h
  all_goals simp_all
  all_goals (rw [← h]; norm_num)

/-! ### Bounds on the spec-side sums -/

theorem weightedSum_cons_none {x : String × ℚ} (h : thresholdsFor x.1 = none)
    (tl : List (String × ℚ)) : weightedSum (x :: tl) = weightedSum tl := by
  simp [weightedSum, h]

theorem weightedSum_cons_some {x : String × ℚ} {t : Thresh}
    (h : thresholdsFor x.1 = some t) (tl : List (String × ℚ)) :
    weightedSum (x :: tl) = normalizedScore x.2 t * t.weight + weightedSum tl := by
  simp [weightedSum, h]

theorem weightSum_cons_none {x : String × ℚ} (h : thresholdsFor x.1 = none)
    (tl : List (String × ℚ)) : weightSum (x :: tl) = weightSum tl := by
  simp [weightSum, h]

theorem weightSum_cons_some {x : String × ℚ} {t : Thresh}
    (h : thresholdsFor x.1 = some t) (tl : List (String × ℚ)) :
    weightSum (x :: tl) = t.weight + weightSum tl := by
  simp [weightSum, h]

theorem weightSum_nonneg (m : List (String × ℚ)) : 0 ≤ weightSum m := by
  induction m with
  | nil => simp [weightSum]
  | cons hd tl ih =>
      cases h : thresholdsFor hd.1 with
      | none => rw [weightSum_cons_none h]; exact ih
      | some t =>
          rw [weightSum_cons_some h]
          have := (thresholdsFor_pos hd.1 t h).2
          linarith

theorem weightedSum_nonneg (m : List (String × ℚ)) (hv : ∀ x ∈ m, 0 ≤ x.2) :
    0 ≤ weightedSum m := by
  induction m with
  | nil => simp [weightedSum]
  | cons hd tl ih =>
      have ih2 := ih (fun x hx => hv x (List.mem_cons_of_mem hd hx))
      cases h : thresholdsFor hd.1 with
      | none => rw [weightedSum_cons_none h]; exact ih2
      | some t =>
          rw [weightedSum_cons_some h]
          obtain ⟨hm, hw⟩ := thresholdsFor_pos hd.1 t h
          have hv0 : 0 ≤ hd.2 := hv hd (List.mem_cons_self hd tl)
          have hns : 0 ≤ normalizedScore hd.2 t := by
            unfold normalizedScore MAX_NORMALIZED_SCORE
            have : 0 ≤ (hd.2 / t.moderate) * 100 := by positivity
            exact le_min this (by norm_num)
          have hterm : 0 ≤ normalizedScore hd.2 t * t.weight :=
            mul_nonneg hns (le_of_lt hw)
          linarith

theorem weightedSum_le (m : List (String × ℚ)) :
    weightedSum m ≤ 150 * weightSum m := by
  induction m with
  | nil => simp [weightedSum, weightSum]
  | cons hd tl ih =>
      cases h : thresholdsFor hd.1 with
      | none => rw [weightedSum_cons_none h, weightSum_cons_none h]; exact ih
      | some t =>
          rw [weightedSum_cons_some h, weightSum_cons_some h]
          obtain ⟨hm, hw⟩ := thresholdsFor_pos hd.1 t h
          have hns : normalizedScore hd.2 t ≤ 150 :=
            min_le_right _ _
          have hterm : normalizedScore hd.2 t * t.weight ≤ 150 * t.weight :=
            mul_le_mul_of_nonneg_right hns (le_of_lt hw)
          linarith

/-! ### Concrete table lookups and index evaluations (shared helpers) -/

theorem thresholdsFor_PM25 : thresholdsFor "PM2.5" = some ⟨15, 25, 3/2⟩ := by
  simp [thresholdsFor, POLLUTANT_THRESHOLDS, List.lookup]

theorem thresholdsFor_NO2 : thresholdsFor "NO2" = some ⟨25, 50, 13/10⟩ := by
  simp [thresholdsFor, POLLUTANT_THRESHOLDS, List.lookup]

theorem thresholdsFor_XYZ : thresholdsFor "XYZ" = none := by
  simp [thresholdsFor, POLLUTANT_THRESHOLDS, List.lookup]

/-- The source loop computes exactly the spec formula
`round(weighted_sum / weight_sum, 1)`, with 0 for a zero weight sum. -/
theorem index_eq_formula (m : List (String × ℚ)) :
    calculate_pollution_index m =
      if weightSum m = 0 then 0 else round1 (weightedSum m / weightSum m) := by
  by_cases hm : m = []
  · subst hm
    simp [calculate_pollution_index, weightSum, weightedSum]
  · unfold calculate_pollution_index
    rw [if_neg hm, foldl_indexStep]
    simp

/-- Documented example: `{PM2.5: 25, NO2: 50}` gives index `100.0`. -/
theorem index_example_100 :
    calculate_pollution_index [("PM2.5", 25), ("NO2", 50)] = 100 := by
  simp only [calculate_pollution_index, List.foldl, indexStep,
    thresholdsFor_PM25, thresholdsFor_NO2]
  norm_num [round1, roundHalfEven, MAX_NORMALIZED_SCORE, min_def]
  all_goals simp

/-- A genuinely computed index of a zero-valued measurement is `0`. -/
theorem index_PM25_zero : calculate_pollution_index [("PM2.5", 0)] = 0 := by
  simp only [calculate_pollution_index, List.foldl, indexStep, thresholdsFor_PM25]
  norm_num [round1, roundHalfEven, MAX_NORMALIZED_SCORE, min_def]

/-- An input with no reference-table overlap gives `0`. -/
theorem index_XYZ_zero : calculate_pollution_index [("XYZ", 7)] = 0 := by
  simp only [calculate_pollution_index, List.foldl, indexStep, thresholdsFor_XYZ]
  norm_num

/-! ### C1 -/

/-- Claim C1: `calculate_pollution_index` returns
`round(weighted_sum / weight_sum, 1)` where weighted_sum sums
`min((value/moderate)*100, 150) * weight` over the pollutants present in
the reference table and weight_sum sums their weights; it returns 0 when
the weight sum is 0 (including the empty mapping); and the documented
example `{PM2.5: 25, NO2: 50}` yields `100.0`. -/
theorem C1_index_formula :
    (∀ m : List (String × ℚ), calculate_pollution_index m =
        if weightSum m = 0 then 0 else round1 (weightedSum m / weightSum m))
    ∧ calculate_pollution_index [("PM2.5", 25), ("NO2", 50)] = 100 :=
  ⟨index_eq_formula, index_example_100⟩

/-! ### C2 -/

/-- Claim C2: `get_index_category` yields exactly one of three categories by
the fixed boundaries: below `INDEX_MODERATE_THRESHOLD` (50) it is "Bon"
(Good), from there up to below `INDEX_HIGH_THRESHOLD` (100) it is
"Modéré" (Moderate), and at or above 100 it is "Élevé" (High); the
boundaries are the named configuration constants (as is the
`MAX_NORMALIZED_SCORE = 150` cap used by the index formula). -/
theorem C2_category_buckets :
    ∀ i : ℚ,
      ((get_index_category i).label = "Bon" ↔ i < INDEX_MODERATE_THRESHOLD)
      ∧ ((get_index_category i).label = "Modéré" ↔
          (INDEX_MODERATE_THRESHOLD ≤ i ∧ i < INDEX_HIGH_THRESHOLD))
      ∧ ((get_index_category i).label = "Élevé" ↔ INDEX_HIGH_THRESHOLD ≤ i)
      ∧ ((get_index_category i).label = "Bon"
          ∨ (get_index_category i).label = "Modéré"
          ∨ (get_index_category i).label = "Élevé")
      ∧ MAX_NORMALIZED_SCORE = 150 := by
  intro i
  unfold get_index_category INDEX_MODERATE_THRESHOLD INDEX_HIGH_THRESHOLD
  split
  · rename_i h1
    simp only []
    refine ⟨by simp [h1], ?_, ?_, by simp, rfl⟩
    · simp only [show ("Bon" = "Modéré") = False by simp]
      constructor
      · intro h; exact absurd h (by decide)
      · intro ⟨h2, _⟩; linarith
    · constructor
      · intro h; exact absurd h (by decide)
      · intro h2; linarith
  · split
    · rename_i h1 h2
      push_neg at h1
      refine ⟨?_, by simp [h1, h2], ?_, by simp, rfl⟩
      · constructor
        · intro h; exact absurd h (by decide)
        · intro h; linarith
      · constructor
        · intro h; exact absurd h (by decide)
        · intro h; linarith
    · rename_i h1 h2
      push_neg at h1 h2
      refine ⟨?_, ?_, by simp [h2], by simp, rfl⟩
      · constructor
        · intro h; exact absurd h (by decide)
        · intro h; linarith
      · constructor
        · intro h; exact absurd h (by decide)
        · intro ⟨_, h⟩; linarith

/-! ### C4 -/

/-- Claim C4: For every input mapping whose values are all nonnegative, the
composite pollution index lies in `[0, 150]`: the per-pollutant scores
are clamped at `MAX_NORMALIZED_SCORE = 150`, so even an extreme outlier
cannot push the weighted average above 150, and nonnegative inputs cannot
produce a negative index. -/
theorem C4_index_bounds (m : List (String × ℚ)) (hv : ∀ x ∈ m, 0 ≤ x.2) :
    0 ≤ calculate_pollution_index m ∧ calculate_pollution_index m ≤ 150 := by
  rw [index_eq_formula m]
  split
  · norm_num
  · rename_i hw
    have hwpos : 0 < weightSum m := lt_of_le_of_ne (weightSum_nonneg m) (Ne.symm hw)
    have h1 : 0 ≤ weightedSum m / weightSum m :=
      div_nonneg (weightedSum_nonneg m hv) (le_of_lt hwpos)
    have h2 : weightedSum m / weightSum m ≤ 150 :=
      (div_le_iff₀ hwpos).mpr (by linarith [weightedSum_le m])
    constructor
    · unfold round1
      have := le_roundHalfEven 0 (10 * (weightedSum m / weightSum m)) (by push_cast; linarith)
      have h10 : (0 : ℚ) ≤ (roundHalfEven (10 * (weightedSum m / weightSum m)) : ℚ) := by
        exact_mod_cast this
      linarith
    · unfold round1
      have := roundHalfEven_le 1500 (10 * (weightedSum m / weightSum m)) (by push_cast; linarith)
      have h10 : ((roundHalfEven (10 * (weightedSum m / weightSum m)) : ℚ)) ≤ 1500 := by
        exact_mod_cast this
      linarith

/-- Witness for C4 at a concrete input: a single extreme outlier
(PM2.5 at 1000000) still gives an index within `[0, 150]`. -/
theorem C4_index_bounds_witness :
    0 ≤ calculate_pollution_index [("PM2.5", 1000000)]
    ∧ calculate_pollution_index [("PM2.5", 1000000)] ≤ 150 :=
  C4_index_bounds [("PM2.5", 1000000)]
    (by intro x hx; rw [List.mem_singleton] at hx; subst hx; norm_num)

/-! ### C3 -/

/-- Claim C3 counterexample: The "no data" states are *not* distinguishable
from a computed zero score: the empty mapping, a mapping with no
reference-table overlap, and a city with no rows all return the plain
number `0`, and a genuinely computed index of a zero-valued measurement
is the very same `0`. -/
theorem C3_counterexample :
    calculate_pollution_index [] = 0
    ∧ calculate_pollution_index [("XYZ", 7)] = 0
    ∧ calculate_city_pollution_index [] "PARIS" = 0
    ∧ calculate_pollution_index [("PM2.5", 0)] = 0
    ∧ calculate_city_pollution_index [⟨"PARIS", "PM2.5", 0⟩] "PARIS" = 0 := by
  refine ⟨by simp [calculate_pollution_index], index_XYZ_zero,
    by simp [calculate_city_pollution_index], index_PM25_zero, ?_⟩
  simp only [calculate_city_pollution_index, List.filter, meansByPollutant]
  norm_num [calculate_pollution_index, List.foldl, indexStep, thresholdsFor_PM25,
    round1, roundHalfEven, MAX_NORMALIZED_SCORE, min_def]

/-- Claim C3 amended: When the index computation has no data to aggregate —
no rows match the city, or no pollutant of the input overlaps the
reference table — the result is the plain number `0`, the same value as a
genuinely computed zero score; the empty state is not distinguishable
from a real 0 index by the returned value alone. -/
theorem C3_no_data_returns_plain_zero :
    (∀ m : List (String × ℚ), weightSum m = 0 → calculate_pollution_index m = 0)
    ∧ (∀ (df : List IndexRow) (city : String),
        df.filter (fun r => r.cityNorm == city) = [] →
        calculate_city_pollution_index df city = 0)
    ∧ calculate_pollution_index [("PM2.5", 0)] = 0 := by
  refine ⟨?_, ?_, index_PM25_zero⟩
  · intro m hm
    rw [index_eq_formula m, if_pos hm]
  · intro df city hf
    unfold calculate_city_pollution_index
    simp only [hf]
    simp

/-- Witness for C3 amended: the unknown pollutant "XYZ" gives weight
sum 0 and index 0, and a dataframe whose only row is another city gives
index 0 for PARIS. -/
theorem C3_no_data_returns_plain_zero_witness :
    calculate_pollution_index [("XYZ", 7)] = 0
    ∧ calculate_city_pollution_index [⟨"LYON", "NO2", 3⟩] "PARIS" = 0 :=
  ⟨C3_no_data_returns_plain_zero.1 [("XYZ", 7)]
     (by simp [weightSum, thresholdsFor, POLLUTANT_THRESHOLDS, List.lookup]),
   C3_no_data_returns_plain_zero.2.1 [⟨"LYON", "NO2", 3⟩] "PARIS" (by simp)⟩

/-! ### C6 -/

/-- Claim C6 counterexample: The claim says `canonicalize_city` uppercases
every label; the source returns a non-matching label *unchanged*, in its
original case: on "bordeaux" the source gives "bordeaux" while the
claimed behavior gives "BORDEAUX". -/
theorem C6_counterexample :
    normalize_city "bordeaux" = "bordeaux"
    ∧ canonicalize_city_claim "bordeaux" = "BORDEAUX"
    ∧ normalize_city "bordeaux" ≠ canonicalize_city_claim "bordeaux" := by
  refine ⟨by decide, by decide, by decide⟩

/-- Claim C6 amended: `normalize_city` uppercases the label only for
matching: it collapses to the root name exactly when the uppercased label
contains the root AND (contains "ARRONDISSEMENT" OR starts with the root
followed by a space), testing PARIS, then MARSEILLE, then LYON; when no
rule matches it returns the label unchanged in its original case.  In
particular "PARIS 5E ARRONDISSEMENT" maps to "PARIS", "LYON 3" maps to
"LYON", and "VILLEPARISIS" is returned unchanged (no false-positive
collapse). -/
theorem C6_normalize_city_rules :
    (∀ label : String, parisMatch (upperStr label) = true →
        normalize_city label = "PARIS")
    ∧ (∀ label : String, parisMatch (upperStr label) = false →
        marseilleMatch (upperStr label) = true →
        normalize_city label = "MARSEILLE")
    ∧ (∀ label : String, parisMatch (upperStr label) = false →
        marseilleMatch (upperStr label) = false →
        lyonMatch (upperStr label) = true →
        normalize_city label = "LYON")
    ∧ (∀ label : String, parisMatch (upperStr label) = false →
        marseilleMatch (upperStr label) = false →
        lyonMatch (upperStr label) = false →
        normalize_city label = label)
    ∧ normalize_city "PARIS 5E ARRONDISSEMENT" = "PARIS"
    ∧ normalize_city "LYON 3" = "LYON"
    ∧ normalize_city "VILLEPARISIS" = "VILLEPARISIS" := by
  refine ⟨?_, ?_, ?_, ?_, by decide, by decide, by decide⟩
  · intro label h1
    simp [normalize_city, h1]
  · intro label h1 h2
    simp [normalize_city, h1, h2]
  · intro label h1 h2 h3
    simp [normalize_city, h1, h2, h3]
  · intro label h1 h2 h3
    simp [normalize_city, h1, h2, h3]

/-- Witness for C6 amended at concrete inputs: "Marseille 3e
arrondissement" matches the MARSEILLE rule and collapses, while
"Bordeaux" matches no rule and is returned unchanged. -/
theorem C6_normalize_city_rules_witness :
    normalize_city "Marseille 3e arrondissement" = "MARSEILLE"
    ∧ normalize_city "Bordeaux" = "Bordeaux" :=
  ⟨C6_normalize_city_rules.2.1 "Marseille 3e arrondissement" (by decide) (by decide),
   C6_normalize_city_rules.2.2.2.1 "Bordeaux" (by decide) (by decide) (by decide)⟩

/-! ### C7 -/

/-- Claim C7: `is_valid_city` returns false exactly when the label is
empty, or starts with the country-style prefix "FR" followed immediately
by a digit, or starts with the network-operator prefix token "ATMO", or
contains the dash-delimited network-identifier substring "NET-"; and it
is true otherwise.  In particular "FR04001", "ATMO-NORD" and "NET-12" are
invalid and "PARIS" is valid. -/
theorem C7_is_valid_city_characterization :
    (∀ s : String, is_valid_city s = is_valid_city_label_claim s)
    ∧ is_valid_city "FR04001" = false
    ∧ is_valid_city "ATMO-NORD" = false
    ∧ is_valid_city "NET-12" = false
    ∧ is_valid_city "PARIS" = true := by
  refine ⟨?_, by decide, by decide, by decide, by decide⟩
  intro s
  simp only [is_valid_city, is_valid_city_label_claim]
  cases h1 : (s == "") <;>
    cases h2 : (decide (2 < s.data.length) && strStartsWith s "FR"
      && (s.data.getD 2 ' ').isDigit) <;>
    cases h3 : strStartsWith s "ATMO" <;>
    cases h4 : strContains s "NET-" <;>
    simp [h1, h2, h3, h4]

/-! ### C5 -/

/-- Claim C5: For every coordinate string whose comma-split yields exactly
two parts which, trimmed, parse as floats, `parse_coords` returns the
pair of parsed values; for every malformed input — no comma (fewer than
two parts) or a non-parsing half — it returns the null result (and, being
a total function, never raises). -/
theorem C5_parse_coords_contract (s : String) :
    (∀ p0 p1 lat lon, splitOnComma s.data = [p0, p1] →
        parseFloatChars (stripChars p0) = some lat →
        parseFloatChars (stripChars p1) = some lon →
        parse_coords s = some (lat, lon))
    ∧ (∀ p0, splitOnComma s.data = [p0] → parse_coords s = none)
    ∧ (∀ p0 p1 rest, splitOnComma s.data = p0 :: p1 :: rest →
        parseFloatChars (stripChars p0) = none → parse_coords s = none)
    ∧ (∀ p0 p1 rest lat, splitOnComma s.data = p0 :: p1 :: rest →
        parseFloatChars (stripChars p0) = some lat →
        parseFloatChars (stripChars p1) = none → parse_coords s = none) := by
  refine ⟨?_, ?_, ?_, ?_⟩
  · intro p0 p1 lat lon hs h0 h1
    simp [parse_coords, hs, h0, h1]
  · intro p0 hs
    simp [parse_coords, hs]
  · intro p0 p1 rest hs h0
    simp [parse_coords, hs, h0]
  · intro p0 p1 rest lat hs h0 h1
    simp [parse_coords, hs, h0, h1]

/-- Witness for C5 at concrete inputs: "48.8, 2.3" parses to the pair
(48.8, 2.3), "48.8" (no comma) gives none, and "a, 2.3" (non-numeric
first half) gives none. -/
theorem C5_parse_coords_contract_witness :
    parse_coords "48.8, 2.3" = some (244/5, 23/10)
    ∧ parse_coords "48.8" = none
    ∧ parse_coords "a, 2.3" = none := by
  refine ⟨?_, ?_, ?_⟩
  · refine (C5_parse_coords_contract "48.8, 2.3").1 "48.8".data " 2.3".data
      (244/5) (23/10) (by decide) ?_ ?_
    · show parseFloatChars "48.8".data = some (244/5)
      simp [parseFloatChars, parseSign, splitFirstAt, parseMantissa, isDigits, digitsVal]
      norm_num
    · show parseFloatChars "2.3".data = some (23/10)
      simp [parseFloatChars, parseSign, splitFirstAt, parseMantissa, isDigits, digitsVal]
      norm_num
  · exact (C5_parse_coords_contract "48.8").2.1 "48.8".data (by decide)
  · refine (C5_parse_coords_contract "a, 2.3").2.2.1 "a".data " 2.3".data []
      (by decide) ?_
    show parseFloatChars "a".data = none
    simp [parseFloatChars, parseSign, splitFirstAt, parseMantissa, isDigits]

/-! ### C10 -/

/-- Claim C10: When the comma-split has more than two parts and the first
two parse (after trimming) as floats, `parse_coords` succeeds with the
first two values and silently ignores the remaining parts. -/
theorem C10_extra_parts_ignored (s : String) :
    ∀ p0 p1 p2 rest lat lon, splitOnComma s.data = p0 :: p1 :: p2 :: rest →
      parseFloatChars (stripChars p0) = some lat →
      parseFloatChars (stripChars p1) = some lon →
      parse_coords s = some (lat, lon) := by
  intro p0 p1 p2 rest lat lon hs h0 h1
  simp [parse_coords, hs, h0, h1]

/-- Witness for C10: "48.8, 2.3, 99" yields (48.8, 2.3), the third
part ignored. -/
theorem C10_extra_parts_ignored_witness :
    parse_coords "48.8, 2.3, 99" = some (244/5, 23/10) := by
  refine C10_extra_parts_ignored "48.8, 2.3, 99" "48.8".data " 2.3".data " 99".data []
    (244/5) (23/10) (by decide) ?_ ?_
  · show parseFloatChars "48.8".data = some (244/5)
    simp [parseFloatChars, parseSign, splitFirstAt, parseMantissa, isDigits, digitsVal]
    norm_num
  · show parseFloatChars "2.3".data = some (23/10)
    simp [parseFloatChars, parseSign, splitFirstAt, parseMantissa, isDigits, digitsVal]
    norm_num

/-! ### C8 -/

/-- Claim C8 counterexample: `fillna` substitutes the location label only
for a *missing* city, not for an empty-string city: on a row with
`City = ""` and `Location = "LYON"` the backfill leaves the empty string
in place instead of substituting the location label, so the row enters
city-label validation with an empty city. -/
theorem C8_counterexample :
    (backfill_city ⟨"", "NO2", none, some "", some "LYON", none, none, none⟩).city
      = some ""
    ∧ (backfill_city ⟨"", "NO2", none, some "", some "LYON", none, none, none⟩).city
      ≠ (⟨"", "NO2", none, some "", some "LYON", none, none, none⟩ : Row).location := by
  exact ⟨rfl, by decide⟩

/-- Claim C8 amended: `backfill_city` substitutes the location label of the row
exactly when the city label is *missing* (null); a present city label —
including the empty string — is left unchanged, and an empty-string city
is then rejected by the city-label validation rather than backfilled. -/
theorem C8_backfill_missing_only :
    (∀ r : Row, r.city = none → (backfill_city r).city = r.location)
    ∧ (∀ (r : Row) (c : String), r.city = some c → (backfill_city r).city = some c)
    ∧ is_valid_city "" = false := by
  refine ⟨?_, ?_, by decide⟩
  · intro r h
    simp [backfill_city, h]
  · intro r c h
    simp [backfill_city, h]

/-- Witness for C8 amended: a missing city is backfilled from the
location; an empty-string city is kept. -/
theorem C8_backfill_missing_only_witness :
    (backfill_city ⟨"", "NO2", none, none, some "NANTES", none, none, none⟩).city
      = some "NANTES"
    ∧ (backfill_city ⟨"", "NO2", none, some "", some "NANTES", none, none, none⟩).city
      = some "" :=
  ⟨C8_backfill_missing_only.1 ⟨"", "NO2", none, none, some "NANTES", none, none, none⟩ rfl,
   C8_backfill_missing_only.2.1 ⟨"", "NO2", none, some "", some "NANTES", none, none, none⟩ "" rfl⟩

/-! ### C9 -/

theorem normalize_city_PARIS : normalize_city "PARIS" = "PARIS" := by decide

theorem normalize_city_MARSEILLE : normalize_city "MARSEILLE" = "MARSEILLE" := by
  decide

theorem normalize_city_LYON : normalize_city "LYON" = "LYON" := by decide

/-- Canonicalization is idempotent: the three collapse targets are fixed
points, and a non-matching label is returned unchanged. -/
theorem normalize_city_idem (x : String) :
    normalize_city (normalize_city x) = normalize_city x := by
  by_cases h1 : parisMatch (upperStr x) = true
  · have hx : normalize_city x = "PARIS" := by simp [normalize_city, h1]
    rw [hx, normalize_city_PARIS]
  · by_cases h2 : marseilleMatch (upperStr x) = true
    · have hx : normalize_city x = "MARSEILLE" := by simp [normalize_city, h1, h2]
      rw [hx, normalize_city_MARSEILLE]
    · by_cases h3 : lyonMatch (upperStr x) = true
      · have hx : normalize_city x = "LYON" := by simp [normalize_city, h1, h2, h3]
        rw [hx, normalize_city_LYON]
      · have hx : normalize_city x = x := by simp [normalize_city, h1, h2, h3]
        rw [hx, hx]

/-- A row the pipeline keeps is a fixed point of the per-row cleaning
chain, and satisfies every filter predicate. -/
theorem rowClean_some {r r' : Row} (h : rowClean r = some r') :
    rowClean r' = some r' ∧ rowOk r' = true := by
  obtain ⟨cs, pol, val, city, loc, lat0, lon0, cn0⟩ := r
  cases hp : parse_coords cs with
  | none =>
      simp [rowClean, setCoords, hp] at h
  | some ll =>
      cases city with
      | some c =>
          simp [rowClean, setCoords, hp, backfill_city] at h
          obtain ⟨h1, h2, h3, h4, h5⟩ := h
          subst h5
          constructor
          · simp [rowClean, setCoords, hp, backfill_city, h1, h2, h3, h4]
          · simp [rowOk, h1, h2, h3, h4, Option.isSome_iff_ne_none]
      | none =>
          simp [rowClean, setCoords, hp, backfill_city] at h
          obtain ⟨h1, h2, h3, h4, h5⟩ := h
          cases loc with
          | none => simp [cityValid] at h4
          | some c =>
              subst h5
              constructor
              · simp [rowClean, setCoords, hp, backfill_city, h1, h2, h3, h4]
              · simp [rowOk, h1, h2, h3, h4, Option.isSome_iff_ne_none]

/-- Claim C9: The Normalizer is idempotent: applying the cleaning pipeline
to its own output changes nothing; every cleaned row satisfies each
filter predicate (known pollutant code, value present and in `[0, 1000)`,
parsed coordinates present, valid city label); the city backfill leaves a
non-missing city unchanged; and canonicalization is idempotent. -/
theorem C9_normalizer_idempotent :
    (∀ rows : List Row, load_clean (load_clean rows) = load_clean rows)
    ∧ (∀ rows : List Row, (load_clean rows).all rowOk = true)
    ∧ (∀ (r : Row) (c : String), r.city = some c → backfill_city r = r)
    ∧ (∀ x : String, normalize_city (normalize_city x) = normalize_city x) := by
  refine ⟨?_, ?_, ?_, normalize_city_idem⟩
  · intro rows
    unfold load_clean
    rw [List.filterMap_filterMap]
    have hfun : (fun r => (rowClean r).bind rowClean) = rowClean := by
      funext r
      cases hr : rowClean r with
      | none => simp
      | some r2 => simp [(rowClean_some hr).1]
    rw [hfun]
  · intro rows
    induction rows with
    | nil => simp [load_clean]
    | cons hd tl ih =>
        unfold load_clean at *
        cases hr : rowClean hd with
        | none => simpa [List.filterMap_cons, hr] using ih
        | some r2 =>
            simp only [List.filterMap_cons, hr, List.all_cons, Bool.and_eq_true]
            exact ⟨(rowClean_some hr).2, ih⟩
  · intro r c h
    obtain ⟨cs, pol, val, city, loc, lat0, lon0, cn0⟩ := r
    simp only at h
    subst h
    simp [backfill_city]

/-- Witness for C9 (its third conjunct has a hypothesis): the
backfill leaves the concrete row with city "PARIS" unchanged. -/
theorem C9_normalizer_idempotent_witness :
    backfill_city ⟨"", "NO2", none, some "PARIS", some "X", none, none, none⟩
      = ⟨"", "NO2", none, some "PARIS", some "X", none, none, none⟩ :=
  C9_normalizer_idempotent.2.2.1
    ⟨"", "NO2", none, some "PARIS", some "X", none, none, none⟩ "PARIS" rfl

end AirQuality
